import Mathlib

/-
Shallow embedding of src/summarize.py (a Slack thread summarizer).
Pure logic (anonymize_users, prompt construction, response extraction) is
translated directly; the two network calls (Slack conversations_replies and
Bedrock invoke_model) are oracles passed as function arguments, each of which
may fail; the output file conversation_summary.txt is explicit state.
-/

set_option maxHeartbeats 1000000

/-- A Slack thread message as consumed by anonymize_users: the code reads the
optional fields "user" and "text" with dict.get, so both are modelled as
Option. -/
structure SlackMessage where
  user : Option String
  text : Option String
  deriving DecidableEq, Repr

/-- Environment-derived configuration of src/summarize.py. AWS_MODEL_ID
defaults to "anthropic.claude-v2" and SPECIFIC_EMOJI to "bulb". -/
structure Config where
  MODEL_ID : String
  SPECIFIC_EMOJI : String
  deriving DecidableEq, Repr

/-- The default configuration (no environment overrides). -/
def defaultConfig : Config :=
  ⟨"anthropic.claude-v2", "bulb"⟩

/-- ASCII model of the Python regex class \w used in the mention pattern
<@U\w+> on line 50 of src/summarize.py. -/
def isWordChar (c : Char) : Bool :=
  c.isAlpha || c.isDigit || c = '_'

/-- ASCII model of the whitespace characters removed by Python str.strip on
line 43 of src/summarize.py. -/
def pyIsSpace (c : Char) : Bool :=
  c = ' ' || c = '\t' || c = '\n' || c = '\r' || c = '\x0b' || c = '\x0c'

/-- Python str.strip on a character list: drop whitespace at both ends. -/
def stripChars (l : List Char) : List Char :=
  ((l.dropWhile pyIsSpace).reverse.dropWhile pyIsSpace).reverse

/-- If the list starts with a match of the regex <@U\w+> (a literal "<@U",
one or more word characters, then ">"), return the remainder after the
match; otherwise none. Greedy \w+ needs no backtracking here because ">" is
not a word character. -/
def findMention : List Char → Option (List Char)
  | '<' :: '@' :: 'U' :: rest =>
    match rest.takeWhile isWordChar, rest.dropWhile isWordChar with
    | _ :: _, '>' :: tail => some tail
    | _, _ => none
  | _ => none

/-- Left-to-right scan of re.sub(r"<@U\w+>", "", text): at each position a
match is deleted and scanning resumes after it, otherwise the character is
kept. Fuel-indexed to make the recursion structural; fuel equal to the list
length suffices because a match consumes at least five characters. -/
def removeMentionsAux : Nat → List Char → List Char
  | 0, l => l
  | _ + 1, [] => []
  | fuel + 1, c :: cs =>
    match findMention (c :: cs) with
    | some tail => removeMentionsAux fuel tail
    | none => c :: removeMentionsAux fuel cs

/-- re.sub(r"<@U\w+>", "", text) from line 50 of src/summarize.py. -/
def removeMentions (l : List Char) : List Char :=
  removeMentionsAux l.length l

/-- Whether some position of the list starts a match of <@U\w+>. -/
def containsMention : List Char → Bool
  | [] => false
  | c :: cs => (findMention (c :: cs)).isSome || containsMention cs

/-- The full text transformation anonymize_users applies to one message text:
msg.get("text", "").strip() on line 43, then mention removal on line 50.
The strip happens before the removal, so a removed mention can leave
whitespace at the ends of the result. -/
def cleanText (t : String) : String :=
  String.mk (removeMentions (stripChars t.toList))

/-- msg.get("user", "Unknown") on line 42 of src/summarize.py. -/
def authorOf (m : SlackMessage) : String :=
  m.user.getD "Unknown"

/-- The loop state of anonymize_users: the user-to-label mapping (insertion
ordered, as a Python dict is), the next label number, and the formatted lines
so far in reverse. -/
structure AnonState where
  mapping : List (String × String)
  counter : Nat
  lines : List String
  deriving DecidableEq, Repr

/-- One iteration of the loop in anonymize_users (lines 41-53): resolve or
create the label for the message author, then emit the line
"<label>: <cleaned text>". -/
def anonStep (st : AnonState) (msg : SlackMessage) : AnonState :=
  let user_id := authorOf msg
  let cleaned := cleanText (msg.text.getD "")
  match st.mapping.lookup user_id with
  | some label =>
    { st with lines := (label ++ ": " ++ cleaned) :: st.lines }
  | none =>
    let label := "User " ++ toString st.counter
    { mapping := st.mapping ++ [(user_id, label)]
      counter := st.counter + 1
      lines := (label ++ ": " ++ cleaned) :: st.lines }

/-- The whole loop of anonymize_users, starting from the empty mapping and
counter 1. -/
def anonFold (messages : List SlackMessage) : AnonState :=
  messages.foldl anonStep ⟨[], 1, []⟩

/-- anonymize_users (lines 35-55 of src/summarize.py): the newline-joined
transcript. -/
def anonymize_users (messages : List SlackMessage) : String :=
  String.intercalate "\n" (anonFold messages).lines.reverse

/-- The user_mapping dict as built by anonymize_users on the given input. -/
def user_mapping (messages : List SlackMessage) : List (String × String) :=
  (anonFold messages).mapping

/-- A message of the Bedrock Messages API request. -/
structure ChatMsg where
  role : String
  content : String
  deriving DecidableEq, Repr

/-- The request sent by summarize_with_bedrock: the model id and the JSON body
fields (lines 70-77 of src/summarize.py). -/
structure BedrockRequest where
  modelId : String
  messages : List ChatMsg
  max_tokens : Nat
  anthropic_version : String
  deriving DecidableEq, Repr

/-- The parsed response body, keeping the one field the code reads:
result.get("content", ...) on line 80. A response without a "content" key is
modelled as none. -/
structure ResponseBody where
  content : Option String
  deriving DecidableEq, Repr

/-- The fixed instruction content of the first prompt message (lines 61-65 of
src/summarize.py; Python's adjacent string literals concatenate into one
string). -/
def instructionContent : String :=
  "You are a technical assistant bot. Summarize the following Slack conversation in a structured format, focusing on: \n- What the issue was \n- How the issue was identified \n- Steps taken to resolve it \n- Final resolution \n\n"

/-- The two-entry messages list of summarize_with_bedrock (lines 60-67). In
the source this list literal is missing the comma between its two dict
elements, which is a Python SyntaxError at parse time; each element is
otherwise a complete dict with a role and a content, so the list is modelled
with the missing separator inserted. -/
def promptMessages (text : String) : List ChatMsg :=
  [⟨"user", instructionContent⟩, ⟨"user", "Conversation:\n" ++ text⟩]

/-- The invoke_model request built on lines 70-77: the configured model id,
the two prompt messages, max_tokens 500, and the fixed anthropic_version
tag. -/
def mkRequest (cfg : Config) (text : String) : BedrockRequest :=
  ⟨cfg.MODEL_ID, promptMessages text, 500, "bedrock-2023-05-31"⟩

/-- summarize_with_bedrock (lines 58-83 of src/summarize.py). The invoke
oracle stands for invoke_model plus the body read and json.loads; any failure
in those is an Except.error and is caught by the try/except, which returns
the fixed fallback string. On success the "content" field is extracted, with
"No summary available." when the key is absent. -/
def summarize_with_bedrock (cfg : Config)
    (invoke : BedrockRequest → Except String ResponseBody)
    (text : String) : String :=
  match invoke (mkRequest cfg text) with
  | Except.ok result => result.content.getD "No summary available."
  | Except.error _ => "Error generating summary."

/-- The item field of a reaction event: channel and message timestamp. -/
structure SlackItem where
  channel : String
  ts : String
  deriving DecidableEq, Repr

/-- An inbound reaction event as read by handle_reaction: event.get("reaction")
may be absent (none), and event["item"] may be absent, which makes the
subscript access raise KeyError. -/
structure SlackEvent where
  reaction : Option String
  item : Option SlackItem
  deriving DecidableEq, Repr

/-- The outcome of one run of handle_reaction when no exception propagates:
the final content of conversation_summary.txt (none when never written) and
whether the thread fetch, the inference call, and the file write happened. -/
structure HandlerResult where
  file : Option String
  fetched : Bool
  invoked : Bool
  wrote : Bool
  deriving DecidableEq, Repr

/-- handle_reaction (lines 86-119 of src/summarize.py). The fetch oracle
stands for app.client.conversations_replies followed by
response.get("messages", []); the invoke oracle is passed through to
summarize_with_bedrock. The handler has no try/except of its own: a missing
"item" field or a failing fetch escapes as Except.error, modelling a
propagated Python exception. The file argument is the prior content of
conversation_summary.txt; a write replaces it entirely (open mode "w"). -/
def handle_reaction (cfg : Config)
    (fetch : String → String → Except String (List SlackMessage))
    (invoke : BedrockRequest → Except String ResponseBody)
    (event : SlackEvent) (file : Option String) :
    Except String HandlerResult :=
  if event.reaction ≠ some cfg.SPECIFIC_EMOJI then
    Except.ok ⟨file, false, false, false⟩
  else
    match event.item with
    | none => Except.error "KeyError: item"
    | some it =>
      match fetch it.channel it.ts with
      | Except.error e => Except.error e
      | Except.ok messages =>
        match messages with
        | [] => Except.ok ⟨file, true, false, false⟩
        | m :: ms =>
          let anonymized_text := anonymize_users (m :: ms)
          let summary := summarize_with_bedrock cfg invoke anonymized_text
          Except.ok ⟨some ("Original Conversation:\n" ++ anonymized_text ++
            "\n\nSummary:\n" ++ summary), true, true, true⟩

/-- The labels the spec attributes to a run of the anonymizer: the users of
the list, in order, labelled "User n", "User n+1", ... -/
def labelsFrom (n : Nat) : List String → List (String × String)
  | [] => []
  | u :: us => (u, "User " ++ toString n) :: labelsFrom (n + 1) us

/-- The first-appearance order of a list of identifiers: each identifier kept
at its first occurrence only, given the identifiers already seen. -/
def firstSeenAux (seen : List String) : List String → List String
  | [] => []
  | a :: l => if a ∈ seen then firstSeenAux seen l else a :: firstSeenAux (seen ++ [a]) l

/-- The distinct identifiers of a list in first-appearance order. -/
def firstSeen (l : List String) : List String :=
  firstSeenAux [] l

/-- Modelled from the spec words of claim C2: a character of an
"uppercase-alnum identifier". -/
def isUpperAlnum (c : Char) : Bool :=
  c.isUpper || c.isDigit

/-- Modelled from the spec words of claim C2: the list starts with "<@", then
an uppercase-alnum identifier, then ">". For comparison with the source's
findMention. -/
def specMentionAt : List Char → Bool
  | '<' :: '@' :: rest =>
    match rest.takeWhile isUpperAlnum, rest.dropWhile isUpperAlnum with
    | _ :: _, '>' :: _ => true
    | _, _ => false
  | _ => false

/-- Modelled from the spec words of claim C2: some position of the list
matches the spec's explicit-mention pattern. -/
def specContainsMention : List Char → Bool
  | [] => false
  | c :: cs => specMentionAt (c :: cs) || specContainsMention cs

/-- Fixed default-configuration event whose reaction matches the default
target emoji. -/
def eventBulb : SlackEvent :=
  ⟨some "bulb", some ⟨"C1", "111"⟩⟩

/-- A fetch oracle that returns one single-message thread. -/
def fetchOk1 : String → String → Except String (List SlackMessage) :=
  fun _ _ => Except.ok [⟨some "U1", some "hello"⟩]

/-- A fetch oracle that returns an empty thread. -/
def fetchEmpty : String → String → Except String (List SlackMessage) :=
  fun _ _ => Except.ok []

theorem lookup_labelsFrom_eq_none (us : List String) :
    ∀ (n : Nat) (u : String), (labelsFrom n us).lookup u = none ↔ u ∉ us := by
  induction us with
  | nil => intro n u; simp [labelsFrom]
  | cons v us ih =>
    intro n u
    by_cases h : u = v
    · subst h
      simp [labelsFrom, List.lookup]
    · have hb : (u == v) = false := beq_eq_false_iff_ne.mpr h
      simp [labelsFrom, List.lookup, hb, ih, h]

theorem labelsFrom_snoc (us : List String) :
    ∀ (n : Nat) (u : String),
      labelsFrom n (us ++ [u]) = labelsFrom n us ++ [(u, "User " ++ toString (n + us.length))] := by
  induction us with
  | nil => intro n u; simp [labelsFrom]
  | cons v us ih =>
    intro n u
    simp [labelsFrom, ih (n + 1) u, Nat.add_comm, Nat.add_assoc, Nat.add_left_comm]

theorem anonFold_mapping_inv (msgs : List SlackMessage) :
    ∀ (us : List String) (lines : List String),
      (List.foldl anonStep ⟨labelsFrom 1 us, us.length + 1, lines⟩ msgs).mapping
        = labelsFrom 1 (us ++ firstSeenAux us (msgs.map authorOf)) := by
  induction msgs with
  | nil => intro us lines; simp [firstSeenAux]
  | cons m rest ih =>
    intro us lines
    rw [List.foldl_cons]
    by_cases hmem : authorOf m ∈ us
    · have hlk : (labelsFrom 1 us).lookup (authorOf m) ≠ none :=
        fun hn => (lookup_labelsFrom_eq_none us 1 (authorOf m)).mp hn hmem
      rcases hsome : (labelsFrom 1 us).lookup (authorOf m) with _ | label
      · exact absurd hsome hlk
      · have hstep : anonStep ⟨labelsFrom 1 us, us.length + 1, lines⟩ m
            = ⟨labelsFrom 1 us, us.length + 1,
                (label ++ ": " ++ cleanText (m.text.getD "")) :: lines⟩ := by
          simp [anonStep, hsome]
        rw [hstep, ih us _]
        simp [firstSeenAux, hmem]
    · have hnone : (labelsFrom 1 us).lookup (authorOf m) = none :=
        (lookup_labelsFrom_eq_none us 1 (authorOf m)).mpr hmem
      have hstep : anonStep ⟨labelsFrom 1 us, us.length + 1, lines⟩ m
          = ⟨labelsFrom 1 (us ++ [authorOf m]), (us ++ [authorOf m]).length + 1,
              (("User " ++ toString (us.length + 1)) ++ ": " ++ cleanText (m.text.getD "")) :: lines⟩ := by
        simp [anonStep, hnone, labelsFrom_snoc, Nat.add_comm]
      rw [hstep, ih (us ++ [authorOf m]) _]
      simp [firstSeenAux, hmem]

theorem mem_firstSeenAux (l : List String) :
    ∀ (seen : List String) (u : String),
      u ∈ firstSeenAux seen l ↔ (u ∈ l ∧ u ∉ seen) := by
  induction l with
  | nil => intro seen u; simp [firstSeenAux]
  | cons a l ih =>
    intro seen u
    by_cases h : a ∈ seen
    · rw [firstSeenAux, if_pos h, ih]
      simp only [List.mem_cons]
      constructor
      · rintro ⟨hl, hs⟩; exact ⟨Or.inr hl, hs⟩
      · rintro ⟨ha | hl, hs⟩
        · exact absurd (ha ▸ h) hs
        · exact ⟨hl, hs⟩
    · rw [firstSeenAux, if_neg h]
      by_cases hu : u = a
      · subst hu; simp [h]
      · simp only [List.mem_cons, hu, false_or, ih, List.mem_append,
          List.mem_singleton, or_false]
        tauto

theorem nodup_firstSeenAux (l : List String) :
    ∀ seen : List String, (firstSeenAux seen l).Nodup := by
  induction l with
  | nil => intro seen; simp [firstSeenAux]
  | cons a l ih =>
    intro seen
    by_cases h : a ∈ seen
    · rw [firstSeenAux, if_pos h]; exact ih seen
    · rw [firstSeenAux, if_neg h]
      refine List.nodup_cons.mpr ⟨?_, ih _⟩
      rw [mem_firstSeenAux]
      rintro ⟨_, hna⟩
      exact hna (by simp)

theorem removeMentionsAux_no_mention (fuel : Nat) :
    ∀ l : List Char, containsMention l = false → removeMentionsAux fuel l = l := by
  induction fuel with
  | zero => intro l _; rfl
  | succ fuel ih =>
    intro l h
    cases l with
    | nil => rfl
    | cons c cs =>
      rw [containsMention, Bool.or_eq_false_iff] at h
      obtain ⟨h1, h2⟩ := h
      cases hf : findMention (c :: cs) with
      | some t => rw [hf] at h1; simp at h1
      | none => simp [removeMentionsAux, hf, ih cs h2]

theorem handle_reaction_nonmatching (cfg : Config)
    (fetch : String → String → Except String (List SlackMessage))
    (invoke : BedrockRequest → Except String ResponseBody)
    (event : SlackEvent) (file : Option String)
    (h : event.reaction ≠ some cfg.SPECIFIC_EMOJI) :
    handle_reaction cfg fetch invoke event file = Except.ok ⟨file, false, false, false⟩ := by
  simp [handle_reaction, h]

theorem handle_reaction_empty (cfg : Config)
    (fetch : String → String → Except String (List SlackMessage))
    (invoke : BedrockRequest → Except String ResponseBody)
    (event : SlackEvent) (file : Option String) (it : SlackItem)
    (hr : event.reaction = some cfg.SPECIFIC_EMOJI)
    (hi : event.item = some it)
    (hf : fetch it.channel it.ts = Except.ok []) :
    handle_reaction cfg fetch invoke event file = Except.ok ⟨file, true, false, false⟩ := by
  simp [handle_reaction, hr, hi, hf]

theorem handle_reaction_full (cfg : Config)
    (fetch : String → String → Except String (List SlackMessage))
    (invoke : BedrockRequest → Except String ResponseBody)
    (event : SlackEvent) (file : Option String) (it : SlackItem)
    (m : SlackMessage) (ms : List SlackMessage)
    (hr : event.reaction = some cfg.SPECIFIC_EMOJI)
    (hi : event.item = some it)
    (hf : fetch it.channel it.ts = Except.ok (m :: ms)) :
    handle_reaction cfg fetch invoke event file
      = Except.ok ⟨some ("Original Conversation:\n" ++ anonymize_users (m :: ms) ++
          "\n\nSummary:\n" ++ summarize_with_bedrock cfg invoke (anonymize_users (m :: ms))),
          true, true, true⟩ := by
  simp [handle_reaction, hr, hi, hf]

/-- Claim C1: for every sequence of messages, anonymize_users assigns each
distinct author identifier (a missing author being the literal "Unknown")
exactly one label, and the labels are "User 1" through "User N" for the N
distinct authors, in strictly increasing numeric order starting at 1 in the
order the authors first appear in the message sequence. -/
theorem c1_user_mapping_labels (messages : List SlackMessage) :
    user_mapping messages = labelsFrom 1 (firstSeen (messages.map authorOf))
      ∧ (firstSeen (messages.map authorOf)).Nodup
      ∧ (∀ u, u ∈ firstSeen (messages.map authorOf) ↔ u ∈ messages.map authorOf) := by
  refine ⟨?_, nodup_firstSeenAux _ _, fun u => by simp [firstSeen, mem_firstSeenAux]⟩
  have h := anonFold_mapping_inv messages [] []
  simpa [user_mapping, anonFold, firstSeen, labelsFrom] using h

/-- Claim C2 counterexample: the text "hi <@Uabc>" contains no mention in the
spec's sense (an uppercase-alnum identifier between <@ and >), yet the code
changes it: the regex <@U\w+> also matches lowercase identifier characters,
and because stripping precedes the removal the result "hi " keeps a trailing
space, so the text is not merely trimmed at both ends either. -/
theorem c2_spec_pattern_refuted :
    specContainsMention ("hi <@Uabc>".toList) = false
      ∧ cleanText "hi <@Uabc>" = "hi "
      ∧ anonymize_users [⟨some "U1", some "hi <@Uabc>"⟩] = "User 1: hi "
      ∧ "hi " ≠ "hi <@Uabc>" :=
  ⟨by decide, by decide, by decide, by decide⟩

/-- Claim C2 amended: the substrings removed are those matching <@U followed
by one or more word characters (letters of either case, digits, underscore)
followed by >, and the end-trimming happens before that removal, so a removal
can leave whitespace at the ends; any text containing no such pattern after
trimming is returned unchanged apart from the outer-whitespace trimming. -/
theorem c2_no_mention_only_trimmed (t : String)
    (h : containsMention (stripChars t.toList) = false) :
    cleanText t = String.mk (stripChars t.toList) := by
  rw [cleanText, removeMentions, removeMentionsAux_no_mention _ _ h]

/-- Claim C2 amended, witness at a concrete input. -/
theorem c2_no_mention_only_trimmed_witness :
    containsMention (stripChars ("  hello world  ").toList) = false
      ∧ cleanText "  hello world  " = String.mk (stripChars ("  hello world  ").toList) :=
  ⟨by decide, c2_no_mention_only_trimmed "  hello world  " (by decide)⟩

/-- The two-message scenario input of claim C3. -/
def c3_input : List SlackMessage :=
  [⟨some "U1", some "<@U2> help, build broke"⟩, ⟨some "U2", some "fixed by reverting commit"⟩]

/-- Claim C3 counterexample: on the scenario input the transcript is not the
claimed string: the code strips the text before removing the mention <@U2>,
so the space after the mention survives and the first line carries two spaces
after the colon. -/
theorem c3_claimed_transcript_refuted :
    anonymize_users c3_input
      ≠ "User 1: help, build broke\nUser 2: fixed by reverting commit" := by
  decide

/-- Claim C3 amended: the scenario transcript is
"User 1:  help, build broke\nUser 2: fixed by reverting commit", with two
spaces after "User 1:" because mention removal leaves the space that followed
<@U2> in the already-stripped text. -/
theorem c3_actual_transcript :
    anonymize_users c3_input
      = "User 1:  help, build broke\nUser 2: fixed by reverting commit" := by
  decide

/-- Claim C4: when the inference call fails for any reason,
summarize_with_bedrock catches the failure and returns the literal
"Error generating summary." with no retry, and for a matching event with a
non-empty thread the output file then holds the original anonymized
transcript followed by that literal string. -/
theorem c4_failure_fallback (cfg : Config)
    (fetch : String → String → Except String (List SlackMessage))
    (event : SlackEvent) (file : Option String) (it : SlackItem)
    (m : SlackMessage) (ms : List SlackMessage) (e : String)
    (hr : event.reaction = some cfg.SPECIFIC_EMOJI)
    (hi : event.item = some it)
    (hf : fetch it.channel it.ts = Except.ok (m :: ms)) :
    (∀ text, summarize_with_bedrock cfg (fun _ => Except.error e) text
        = "Error generating summary.")
      ∧ handle_reaction cfg fetch (fun _ => Except.error e) event file
        = Except.ok ⟨some ("Original Conversation:\n" ++ anonymize_users (m :: ms) ++
            "\n\nSummary:\n" ++ "Error generating summary."), true, true, true⟩ := by
  refine ⟨fun text => rfl, ?_⟩
  rw [handle_reaction_full cfg fetch _ event file it m ms hr hi hf]
  rfl

/-- Claim C4, witness at a concrete failing transport. -/
theorem c4_failure_fallback_witness :
    eventBulb.reaction = some defaultConfig.SPECIFIC_EMOJI
      ∧ eventBulb.item = some ⟨"C1", "111"⟩
      ∧ fetchOk1 "C1" "111" = Except.ok [⟨some "U1", some "hello"⟩]
      ∧ ((∀ text, summarize_with_bedrock defaultConfig (fun _ => Except.error "network") text
            = "Error generating summary.")
        ∧ handle_reaction defaultConfig fetchOk1 (fun _ => Except.error "network") eventBulb none
          = Except.ok ⟨some ("Original Conversation:\n" ++
              anonymize_users [⟨some "U1", some "hello"⟩] ++
              "\n\nSummary:\n" ++ "Error generating summary."), true, true, true⟩) :=
  ⟨rfl, rfl, rfl,
    c4_failure_fallback defaultConfig fetchOk1 eventBulb none ⟨"C1", "111"⟩
      ⟨some "U1", some "hello"⟩ [] "network" rfl rfl rfl⟩

/-- Claim C5 counterexample: handle_reaction has no try/except of its own, so
a matching event whose thread fetch raises makes that exception propagate out
of the handler. -/
theorem c5_propagation_refuted :
    handle_reaction defaultConfig (fun _ _ => Except.error "slack fetch failed")
      (fun _ => Except.ok ⟨some "s"⟩) eventBulb none
      = Except.error "slack fetch failed" := by
  rfl

/-- Claim C5 amended: only inference-call failures are absorbed (inside
summarize_with_bedrock); a failing thread fetch or a missing item field
propagates out of handle_reaction, but when the event's item field is present
and the fetch succeeds no exception propagates, whatever the invoke oracle
does. -/
theorem c5_no_propagation_when_fetch_ok (cfg : Config)
    (fetch : String → String → Except String (List SlackMessage))
    (invoke : BedrockRequest → Except String ResponseBody)
    (event : SlackEvent) (file : Option String)
    (it : SlackItem) (msgs : List SlackMessage)
    (hi : event.item = some it)
    (hf : fetch it.channel it.ts = Except.ok msgs) :
    ∃ r, handle_reaction cfg fetch invoke event file = Except.ok r := by
  by_cases hr : event.reaction = some cfg.SPECIFIC_EMOJI
  · cases msgs with
    | nil => exact ⟨_, handle_reaction_empty cfg fetch invoke event file it hr hi hf⟩
    | cons m ms => exact ⟨_, handle_reaction_full cfg fetch invoke event file it m ms hr hi hf⟩
  · exact ⟨_, handle_reaction_nonmatching cfg fetch invoke event file hr⟩

/-- Claim C5 amended, witness with a failing inference oracle. -/
theorem c5_no_propagation_witness :
    eventBulb.item = some ⟨"C1", "111"⟩
      ∧ fetchOk1 "C1" "111" = Except.ok [⟨some "U1", some "hello"⟩]
      ∧ ∃ r, handle_reaction defaultConfig fetchOk1 (fun _ => Except.error "down")
          eventBulb none = Except.ok r :=
  ⟨rfl, rfl,
    c5_no_propagation_when_fetch_ok defaultConfig fetchOk1 (fun _ => Except.error "down")
      eventBulb none ⟨"C1", "111"⟩ [⟨some "U1", some "hello"⟩] rfl rfl⟩

/-- Claim C6, proved of the embedding with the missing list separator
repaired (the source list literal on lines 60-67 is a SyntaxError): the
request carries the two-part prompt, the fixed four-facet instruction
followed by the transcript embedded verbatim, with max_tokens 500 and the
fixed protocol-version tag, and on success the response's textual content
field is returned. -/
theorem c6_request_shape (cfg : Config) (text : String) :
    mkRequest cfg text = ⟨cfg.MODEL_ID,
        [⟨"user", instructionContent⟩, ⟨"user", "Conversation:\n" ++ text⟩],
        500, "bedrock-2023-05-31"⟩
      ∧ (∀ s, summarize_with_bedrock cfg (fun _ => Except.ok ⟨some s⟩) text = s) :=
  ⟨rfl, fun _ => rfl⟩

/-- Claim C7: a matching reaction whose fetched thread is empty makes the
handler stop with no inference call and no file write; the output file keeps
its prior content. -/
theorem c7_empty_thread_no_effects (cfg : Config)
    (fetch : String → String → Except String (List SlackMessage))
    (invoke : BedrockRequest → Except String ResponseBody)
    (event : SlackEvent) (file : Option String) (it : SlackItem)
    (hr : event.reaction = some cfg.SPECIFIC_EMOJI)
    (hi : event.item = some it)
    (hf : fetch it.channel it.ts = Except.ok []) :
    handle_reaction cfg fetch invoke event file = Except.ok ⟨file, true, false, false⟩ :=
  handle_reaction_empty cfg fetch invoke event file it hr hi hf

/-- Claim C7, witness: the prior file content survives untouched. -/
theorem c7_empty_thread_witness :
    eventBulb.reaction = some defaultConfig.SPECIFIC_EMOJI
      ∧ eventBulb.item = some ⟨"C1", "111"⟩
      ∧ fetchEmpty "C1" "111" = Except.ok []
      ∧ handle_reaction defaultConfig fetchEmpty (fun _ => Except.ok ⟨some "s"⟩)
          eventBulb (some "old content") = Except.ok ⟨some "old content", true, false, false⟩ :=
  ⟨rfl, rfl, rfl,
    c7_empty_thread_no_effects defaultConfig fetchEmpty (fun _ => Except.ok ⟨some "s"⟩)
      eventBulb (some "old content") ⟨"C1", "111"⟩ rfl rfl rfl⟩

/-- Claim C8: a reaction event whose emoji name differs from the configured
target makes the handler return with no thread fetch, no inference call and
no file write; the output file keeps its prior content. -/
theorem c8_nonmatching_no_effects (cfg : Config)
    (fetch : String → String → Except String (List SlackMessage))
    (invoke : BedrockRequest → Except String ResponseBody)
    (event : SlackEvent) (file : Option String)
    (h : event.reaction ≠ some cfg.SPECIFIC_EMOJI) :
    handle_reaction cfg fetch invoke event file = Except.ok ⟨file, false, false, false⟩ :=
  handle_reaction_nonmatching cfg fetch invoke event file h

/-- Claim C8, witness at a non-target emoji. -/
theorem c8_nonmatching_witness :
    (⟨some "tada", some ⟨"C1", "111"⟩⟩ : SlackEvent).reaction ≠ some defaultConfig.SPECIFIC_EMOJI
      ∧ handle_reaction defaultConfig fetchOk1 (fun _ => Except.ok ⟨some "s"⟩)
          ⟨some "tada", some ⟨"C1", "111"⟩⟩ (some "old content")
        = Except.ok ⟨some "old content", false, false, false⟩ :=
  ⟨by decide,
    c8_nonmatching_no_effects defaultConfig fetchOk1 (fun _ => Except.ok ⟨some "s"⟩)
      ⟨some "tada", some ⟨"C1", "111"⟩⟩ (some "old content") (by decide)⟩

/-- Claim C9: completing a matching event with a non-empty thread overwrites
the output file: whatever its prior content, afterwards it is exactly
"Original Conversation:\n<transcript>\n\nSummary:\n<summary>" for this
invocation's transcript and summary. -/
theorem c9_output_overwritten (cfg : Config)
    (fetch : String → String → Except String (List SlackMessage))
    (invoke : BedrockRequest → Except String ResponseBody)
    (event : SlackEvent) (file : Option String) (it : SlackItem)
    (m : SlackMessage) (ms : List SlackMessage)
    (hr : event.reaction = some cfg.SPECIFIC_EMOJI)
    (hi : event.item = some it)
    (hf : fetch it.channel it.ts = Except.ok (m :: ms)) :
    handle_reaction cfg fetch invoke event file
      = Except.ok ⟨some ("Original Conversation:\n" ++ anonymize_users (m :: ms) ++
          "\n\nSummary:\n" ++ summarize_with_bedrock cfg invoke (anonymize_users (m :: ms))),
          true, true, true⟩ :=
  handle_reaction_full cfg fetch invoke event file it m ms hr hi hf

/-- Claim C9, witness: the prior content "old content" is discarded entirely. -/
theorem c9_output_overwritten_witness :
    eventBulb.reaction = some defaultConfig.SPECIFIC_EMOJI
      ∧ eventBulb.item = some ⟨"C1", "111"⟩
      ∧ fetchOk1 "C1" "111" = Except.ok [⟨some "U1", some "hello"⟩]
      ∧ handle_reaction defaultConfig fetchOk1 (fun _ => Except.ok ⟨some "a summary"⟩)
          eventBulb (some "old content")
        = Except.ok ⟨some ("Original Conversation:\n" ++
            anonymize_users [⟨some "U1", some "hello"⟩] ++ "\n\nSummary:\n" ++
            summarize_with_bedrock defaultConfig (fun _ => Except.ok ⟨some "a summary"⟩)
              (anonymize_users [⟨some "U1", some "hello"⟩])), true, true, true⟩ :=
  ⟨rfl, rfl, rfl,
    c9_output_overwritten defaultConfig fetchOk1 (fun _ => Except.ok ⟨some "a summary"⟩)
      eventBulb (some "old content") ⟨"C1", "111"⟩ ⟨some "U1", some "hello"⟩ [] rfl rfl rfl⟩

/-- Claim C10: a successful inference call whose parsed body has no content
field makes summarize_with_bedrock return "No summary available.", an outcome
distinct from the "Error generating summary." fallback, and that string is
what the output file gets as the summary. -/
theorem c10_missing_content_default (cfg : Config)
    (fetch : String → String → Except String (List SlackMessage))
    (event : SlackEvent) (file : Option String) (it : SlackItem)
    (m : SlackMessage) (ms : List SlackMessage)
    (hr : event.reaction = some cfg.SPECIFIC_EMOJI)
    (hi : event.item = some it)
    (hf : fetch it.channel it.ts = Except.ok (m :: ms)) :
    (∀ text, summarize_with_bedrock cfg (fun _ => Except.ok ⟨none⟩) text
        = "No summary available.")
      ∧ ("No summary available." : String) ≠ "Error generating summary."
      ∧ handle_reaction cfg fetch (fun _ => Except.ok ⟨none⟩) event file
        = Except.ok ⟨some ("Original Conversation:\n" ++ anonymize_users (m :: ms) ++
            "\n\nSummary:\n" ++ "No summary available."), true, true, true⟩ := by
  refine ⟨fun text => rfl, by decide, ?_⟩
  rw [handle_reaction_full cfg fetch _ event file it m ms hr hi hf]
  rfl

/-- Claim C10, witness at a concrete content-free response. -/
theorem c10_missing_content_witness :
    eventBulb.reaction = some defaultConfig.SPECIFIC_EMOJI
      ∧ eventBulb.item = some ⟨"C1", "111"⟩
      ∧ fetchOk1 "C1" "111" = Except.ok [⟨some "U1", some "hello"⟩]
      ∧ ((∀ text, summarize_with_bedrock defaultConfig (fun _ => Except.ok ⟨none⟩) text
            = "No summary available.")
        ∧ ("No summary available." : String) ≠ "Error generating summary."
        ∧ handle_reaction defaultConfig fetchOk1 (fun _ => Except.ok ⟨none⟩) eventBulb none
          = Except.ok ⟨some ("Original Conversation:\n" ++
              anonymize_users [⟨some "U1", some "hello"⟩] ++
              "\n\nSummary:\n" ++ "No summary available."), true, true, true⟩) :=
  ⟨rfl, rfl, rfl,
    c10_missing_content_default defaultConfig fetchOk1 eventBulb none ⟨"C1", "111"⟩
      ⟨some "U1", some "hello"⟩ [] rfl rfl rfl⟩
